import Mathlib

/-!
# Verification of gittuf `internal/gitinterface/keys.go`

A shallow embedding of the signing / verification layer of gittuf's
`internal/gitinterface` package (file `keys.go` together with the Git-config
reading code of the same package), with theorems checking the natural-language
specification against it.

Modelling conventions:
* Go strings are Lean `String`s; the handful of Go standard-library string
  operations used by the code (`strings.Split` with a one-character separator,
  `strings.Join` with `" "`, `strings.ToLower`, `strings.TrimSpace`) are given
  as structural recursions over `String.data` so that every definition is
  executable and kernel-reducible.  The inputs relevant here are ASCII, where
  these agree with Go's Unicode-aware versions.
* A Go `map[string]string` is an association list with most-recent-insertion
  precedence (`insertKey` / `lookupKey`), which realises Go's overwrite-on-insert
  semantics for lookups.
* Package-level sentinel errors become the `GitError` enumeration; Go's
  `errors.Join(sentinel, err)` becomes `VerifyError.joined`, a bare
  `return sentinel` becomes `VerifyError.bare`.
* Calls into external libraries (Fulcio/Rekor/cosign, `sshsig`, `ssh`,
  `pem.Decode`, process spawning) are modelled by their observable outcomes,
  passed in as parameters: `none` for a nil error, `some diag` for a non-nil
  error carrying diagnostic text, and for `pem.Decode` an `Option PEMBlock`.
  The control flow around those outcomes is translated line by line from the
  source.
-/

namespace Gittuf

/-! ## Go string primitives -/

/-- Go `strings.Split` with a one-character separator, on character lists:
splits on every occurrence of `sep`, keeping empty fields. -/
def splitOnChar (sep : Char) : List Char → List (List Char)
  | [] => [[]]
  | c :: rest =>
    if c = sep then
      [] :: splitOnChar sep rest
    else
      match splitOnChar sep rest with
      | [] => [[c]]
      | f :: fs => (c :: f) :: fs

/-- Go `strings.Join` with a one-character separator, on character lists. -/
def joinWithChar (sep : Char) : List (List Char) → List Char
  | [] => []
  | [x] => x
  | x :: xs => x ++ sep :: joinWithChar sep xs

/-- Go `strings.Split(s, sep)` for a one-character separator `sep`. -/
def goSplit (s : String) (sep : Char) : List String :=
  (splitOnChar sep s.data).map String.mk

/-- Go `strings.Join(xs, " ")`. -/
def goJoinSpace (xs : List String) : String :=
  String.mk (joinWithChar ' ' (xs.map String.data))

/-- Go `strings.ToLower` (ASCII range). -/
def goToLower (s : String) : String :=
  String.mk (s.data.map Char.toLower)

/-- Go `strings.TrimSpace`: drop leading and trailing whitespace. -/
def goTrimSpace (s : String) : String :=
  String.mk (((s.data.dropWhile Char.isWhitespace).reverse.dropWhile
    Char.isWhitespace).reverse)

/-! ## Go `map[string]string` -/

/-- Lookup in the association-list model of a Go `map[string]string`:
the most recently inserted binding for a key wins. -/
def lookupKey : List (String × String) → String → Option String
  | [], _ => none
  | (k, v) :: rest, key => if k = key then some v else lookupKey rest key

/-- Insertion into the association-list model of a Go `map[string]string`.
Prepending makes the new binding shadow any older one under `lookupKey`,
matching Go's overwrite-on-insert. -/
def insertKey (m : List (String × String)) (k v : String) :
    List (String × String) :=
  (k, v) :: m

/-! ## Sentinel errors and signing methods (keys.go:28-58) -/

/-- The package-level sentinel errors of keys.go:28-36. -/
inductive GitError
  | SigningKeyNotSpecified
  | UnknownSigningMethod
  | UnableToSign
  | IncorrectVerificationKey
  | VerifyingSigstoreSignature
  | VerifyingSSHSignature
  | InvalidSignature
deriving DecidableEq

/-- Embeds `SigningMethod` (keys.go:38-44). -/
inductive SigningMethod
  | GPG
  | SSH
  | X509
deriving DecidableEq

def DefaultSigningProgramGPG : String := "gpg"

def DefaultSigningProgramSSH : String := "ssh-keygen"

def DefaultSigningProgramX509 : String := "gpgsm"

def namespaceSSHSignature : String := "git"

def gpgPrivateKeyPEMHeader : String := "PGP PRIVATE KEY"

def opensshPrivateKeyPEMHeader : String := "OPENSSH PRIVATE KEY"

def rsaPrivateKeyPEMHeader : String := "RSA PRIVATE KEY"

def genericPrivateKeyPEMHeader : String := "PRIVATE KEY"

/-! ## Signing-method resolution (keys.go:60-171)

`getSigningInfo` in the source first reads the Git config (`getConfig()`); the
functions here take that configuration map as a parameter, so a config-read
failure is outside the model. -/

/-- Embeds `getSigningMethod` (keys.go:123-138). -/
def getSigningMethod (gitConfig : List (String × String)) :
    Except GitError SigningMethod :=
  match lookupKey gitConfig "gpg.format" with
  | none => .ok .GPG
  | some format =>
    if format = "gpg" then .ok .GPG
    else if format = "ssh" then .ok .SSH
    else if format = "x509" then .ok .X509
    else .error .UnknownSigningMethod

/-- Embeds `getSigningKeyInfo` (keys.go:140-146). -/
def getSigningKeyInfo (gitConfig : List (String × String)) : String :=
  match lookupKey gitConfig "user.signingkey" with
  | none => ""
  | some keyInfo => keyInfo

/-- Embeds `getSigningProgram` (keys.go:148-171).  The GPG arm is the source's
fall-through default after the SSH and X509 switch cases. -/
def getSigningProgram (gitConfig : List (String × String))
    (signingMethod : SigningMethod) : String :=
  match signingMethod with
  | .SSH =>
    match lookupKey gitConfig "gpg.ssh.program" with
    | some program => program
    | none => DefaultSigningProgramSSH
  | .X509 =>
    match lookupKey gitConfig "gpg.x509.program" with
    | some program => program
    | none => DefaultSigningProgramX509
  | .GPG =>
    match lookupKey gitConfig "gpg.program" with
    | some program => program
    | none => DefaultSigningProgramGPG

/-- Embeds `getSigningInfo` (keys.go:105-121), as a function of the configuration
snapshot. -/
def getSigningInfo (gitConfig : List (String × String)) :
    Except GitError (SigningMethod × String × String) :=
  match getSigningMethod gitConfig with
  | .error e => .error e
  | .ok signingMethod =>
    .ok (signingMethod, getSigningKeyInfo gitConfig,
      getSigningProgram gitConfig signingMethod)

/-- Embeds `GetSigningCommand` (keys.go:60-103).  The Go function returns
`(string, []string, error)`; a `nil` slice is `none`, a `nil` error is `none`.
The source's `default` switch arm is unreachable because `getSigningMethod`
only ever produces the three listed methods. -/
def GetSigningCommand (gitConfig : List (String × String)) :
    String × Option (List String) × Option GitError :=
  match getSigningInfo gitConfig with
  | .error e => ("", none, some e)
  | .ok (signingMethod, keyInfo, program) =>
    match signingMethod with
    | .GPG =>
      if keyInfo.length = 0 then
        (program, some ["-bsa"], none)
      else
        (program, some ["-bsau", keyInfo], none)
    | .SSH =>
      if keyInfo.length = 0 then
        ("", none, some .SigningKeyNotSpecified)
      else
        (program, some ["-Y", "sign", "-n", "git", "-f", keyInfo], none)
    | .X509 =>
      if keyInfo.length = 0 then
        (program, some ["-bsa"], none)
      else
        (program, some ["-bsau", keyInfo], none)

/-! ## Subprocess signer (keys.go:173-234) -/

/-- Result of `signGitObject`.  `configError` is the early return when
`GetSigningCommand` fails; `processFailed` stands for any non-nil error from
the pipe setup, `Start`, the stdin write, either `ReadAll`, or `cmd.Wait`
(each of which returns `("", err)` in the source); `failed` / `signed` are the
final two returns. -/
inductive SignOutcome
  | configError (e : GitError)
  | processFailed (diag : String)
  | failed (e : GitError)
  | signed (sig : String)
deriving DecidableEq

/-- Embeds `signGitObject` (keys.go:175-234).  The spawned process is modelled by its
observable outcome: `sig` is the text captured from stdout, `stdErrText` the
text captured from stderr (the source only forwards it to the caller's stderr;
it never influences the result), and `processErr` the first non-nil error of
the pipe / start / write / read / `Wait` steps (`none` when the program exits
with status zero and all I/O succeeds). -/
def signGitObject (gitConfig : List (String × String))
    (sig stdErrText : String) (processErr : Option String) : SignOutcome :=
  match (GetSigningCommand gitConfig).2.2 with
  | some e => .configError e
  | none =>
    match processErr with
    | some diag => .processFailed diag
    | none =>
      if sig.length = 0 then .failed .UnableToSign
      else .signed sig

/-! ## Key-material signer (keys.go:236-253) -/

/-- The result of Go's `pem.Decode`: the declared type of the decoded block.
(`pem.Decode` returning `nil` is `none`.) -/
structure PEMBlock where
  blockType : String
deriving DecidableEq

/-- Which in-process signer `signGitObjectUsingKey` hands control to:
`signGitObjectUsingGPGKey` (keys.go:255) or `signGitObjectUsingSSHKey`
(keys.go:271), both of which only call external crypto libraries. -/
inductive KeySigner
  | gpgSigner
  | sshSigner
deriving DecidableEq

/-- Embeds `signGitObjectUsingKey` (keys.go:236-253): dispatch on the outcome of
`pem.Decode(pemKeyBytes)`. -/
def signGitObjectUsingKey (decoded : Option PEMBlock) :
    Except GitError KeySigner :=
  match decoded with
  | none => .ok .gpgSigner
  | some block =>
    if block.blockType = gpgPrivateKeyPEMHeader then .ok .gpgSigner
    else if block.blockType = opensshPrivateKeyPEMHeader then .ok .sshSigner
    else if block.blockType = rsaPrivateKeyPEMHeader then .ok .sshSigner
    else if block.blockType = genericPrivateKeyPEMHeader then .ok .sshSigner
    else .error .UnknownSigningMethod

/-! ## Verification pipelines (keys.go:287-363) -/

/-- A non-nil error returned by a verification function.  `joined s c` is Go's
`errors.Join(sentinel, err)` — the sentinel together with the underlying
cause — while `bare s` is a `return sentinel` with nothing attached. -/
inductive VerifyError
  | joined (sentinel : GitError) (cause : String)
  | bare (sentinel : GitError)
deriving DecidableEq

/-- The category sentinel carried by a verification error. -/
def VerifyError.sentinel : VerifyError → GitError
  | .joined s _ => s
  | .bare s => s

/-- Whether a verification error still carries the underlying low-level
cause. -/
def VerifyError.hasCause : VerifyError → Bool
  | .joined _ _ => true
  | .bare _ => false

/-- Observable outcomes of the seven external calls made by
`verifyGitsignSignature`, in source order: `none` is a nil error, `some diag`
a non-nil one. -/
structure GitsignOutcomes where
  fulcioRootsGetErr : Option String
  fulcioGetIntermediatesErr : Option String
  newCertVerifierErr : Option String
  verifierVerifyErr : Option String
  rekorNewWithOptionsErr : Option String
  getCTLogPubsErr : Option String
  validateAndUnpackCertErr : Option String
deriving DecidableEq

/-- Embeds `verifyGitsignSignature` (keys.go:289-339), translated stage by stage.
`none` is the source's final `return nil`.  Note keys.go:307-310: a failure of
`verifier.Verify` returns `ErrIncorrectVerificationKey` alone, with no
`errors.Join`. -/
def verifyGitsignSignature (p : GitsignOutcomes) : Option VerifyError :=
  match p.fulcioRootsGetErr with
  | some err => some (.joined .VerifyingSigstoreSignature err)
  | none =>
    match p.fulcioGetIntermediatesErr with
    | some err => some (.joined .VerifyingSigstoreSignature err)
    | none =>
      match p.newCertVerifierErr with
      | some err => some (.joined .VerifyingSigstoreSignature err)
      | none =>
        match p.verifierVerifyErr with
        | some _ => some (.bare .IncorrectVerificationKey)
        | none =>
          match p.rekorNewWithOptionsErr with
          | some err => some (.joined .VerifyingSigstoreSignature err)
          | none =>
            match p.getCTLogPubsErr with
            | some err => some (.joined .VerifyingSigstoreSignature err)
            | none =>
              match p.validateAndUnpackCertErr with
              | some err => some (.joined .IncorrectVerificationKey err)
              | none => none

/-- Observable outcomes of the four external calls made by
`verifySSHKeySignature`, in source order. -/
structure SSHVerifyOutcomes where
  newSignerVerifierErr : Option String
  sshNewPublicKeyErr : Option String
  unarmorErr : Option String
  sshsigVerifyErr : Option String
deriving DecidableEq

/-- Embeds `verifySSHKeySignature` (keys.go:342-363), translated stage by stage. -/
def verifySSHKeySignature (p : SSHVerifyOutcomes) : Option VerifyError :=
  match p.newSignerVerifierErr with
  | some err => some (.joined .VerifyingSSHSignature err)
  | none =>
    match p.sshNewPublicKeyErr with
    | some err => some (.joined .VerifyingSSHSignature err)
    | none =>
      match p.unarmorErr with
      | some err => some (.joined .VerifyingSSHSignature err)
      | none =>
        match p.sshsigVerifyErr with
        | some err => some (.joined .IncorrectVerificationKey err)
        | none => none

/-! ## Configuration read (Repository.GetGitConfig) -/

/-- The body of the per-line loop of `Repository.GetGitConfig`:
`split := strings.Split(line, " "); if len(split) < 2 { continue };
config[strings.ToLower(split[0])] = strings.Join(split[1:], " ")`. -/
def parseGitConfigLine (config : List (String × String)) (line : String) :
    List (String × String) :=
  match goSplit line ' ' with
  | key :: val :: rest => insertKey config (goToLower key) (goJoinSpace (val :: rest))
  | _ => config

/-- Embeds `Repository.GetGitConfig`, as a function of the text the
`git config --get-regexp .*` subprocess wrote to stdout:
`strings.Split(strings.TrimSpace(stdOut), "\n")`, then the per-line loop. -/
def GetGitConfig (stdOut : String) : List (String × String) :=
  (goSplit (goTrimSpace stdOut) '\n').foldl parseGitConfigLine []

/-! ## Theorems -/

/-- C1: Signing method resolution is a pure function of the configuration
map's `gpg.format` entry: an absent key yields GPG, `"gpg"` yields GPG,
`"ssh"` yields SSH, `"x509"` yields X509, and any other value fails with
`UnknownSigningMethod`. -/
theorem getSigningMethod_resolution (cfg : List (String × String)) :
    (lookupKey cfg "gpg.format" = none →
      getSigningMethod cfg = .ok .GPG) ∧
    (lookupKey cfg "gpg.format" = some "gpg" →
      getSigningMethod cfg = .ok .GPG) ∧
    (lookupKey cfg "gpg.format" = some "ssh" →
      getSigningMethod cfg = .ok .SSH) ∧
    (lookupKey cfg "gpg.format" = some "x509" →
      getSigningMethod cfg = .ok .X509) ∧
    (∀ v, lookupKey cfg "gpg.format" = some v →
      v ≠ "gpg" → v ≠ "ssh" → v ≠ "x509" →
      getSigningMethod cfg = .error .UnknownSigningMethod) := by
  refine ⟨?_, ?_, ?_, ?_, ?_⟩
  · intro h; simp [getSigningMethod, h]
  · intro h; simp [getSigningMethod, h]
  · intro h; simp [getSigningMethod, h]
  · intro h; simp [getSigningMethod, h]
  · intro v h h1 h2 h3; simp [getSigningMethod, h, h1, h2, h3]

/-- Witness for C1 at the concrete configuration `{gpg.format ↦ ssh}`. -/
theorem getSigningMethod_resolution_witness :
    lookupKey [("gpg.format", "ssh")] "gpg.format" = some "ssh" ∧
    getSigningMethod [("gpg.format", "ssh")] = .ok .SSH :=
  ⟨rfl, (getSigningMethod_resolution [("gpg.format", "ssh")]).2.2.1 rfl⟩

/-- C4: whenever the resolved method is SSH and the signing-key identifier is
absent or empty, `GetSigningCommand` fails with `SigningKeyNotSpecified`,
returning the empty program string and a nil argument slice. -/
theorem GetSigningCommand_ssh_missing_key (cfg : List (String × String))
    (hm : getSigningMethod cfg = .ok .SSH)
    (hk : lookupKey cfg "user.signingkey" = none ∨
      lookupKey cfg "user.signingkey" = some "") :
    GetSigningCommand cfg = ("", none, some .SigningKeyNotSpecified) := by
  rcases hk with hk | hk <;>
    simp [GetSigningCommand, getSigningInfo, getSigningKeyInfo, hm, hk]

/-- Witness for C4 at the concrete configuration `{gpg.format ↦ ssh}`. -/
theorem GetSigningCommand_ssh_missing_key_witness :
    getSigningMethod [("gpg.format", "ssh")] = .ok .SSH ∧
    GetSigningCommand [("gpg.format", "ssh")] =
      ("", none, some .SigningKeyNotSpecified) :=
  ⟨rfl, GetSigningCommand_ssh_missing_key [("gpg.format", "ssh")] rfl (Or.inl rfl)⟩

/-- C9: with the GPG method (format absent or `"gpg"`), signing key `"ABCD"`
and no `gpg.program` configured, `GetSigningCommand` returns the default GPG
binary name (`"gpg"`) and the arguments `-bsau ABCD` (detached, signed,
armored, explicit local-user). -/
theorem GetSigningCommand_gpg_default (cfg : List (String × String))
    (hfmt : lookupKey cfg "gpg.format" = none ∨
      lookupKey cfg "gpg.format" = some "gpg")
    (hkey : lookupKey cfg "user.signingkey" = some "ABCD")
    (hprog : lookupKey cfg "gpg.program" = none) :
    GetSigningCommand cfg = (DefaultSigningProgramGPG, some ["-bsau", "ABCD"], none) ∧
    DefaultSigningProgramGPG = "gpg" := by
  refine ⟨?_, rfl⟩
  rcases hfmt with h | h <;>
    simp [GetSigningCommand, getSigningInfo, getSigningMethod, getSigningKeyInfo,
      getSigningProgram, h, hkey, hprog] <;> decide

/-- Witness for C9 at the concrete configuration `{user.signingkey ↦ ABCD}`. -/
theorem GetSigningCommand_gpg_default_witness :
    lookupKey [("user.signingkey", "ABCD")] "gpg.format" = none ∧
    GetSigningCommand [("user.signingkey", "ABCD")] =
      (DefaultSigningProgramGPG, some ["-bsau", "ABCD"], none) :=
  ⟨rfl, (GetSigningCommand_gpg_default [("user.signingkey", "ABCD")]
    (Or.inl rfl) rfl rfl).1⟩

/-- C5: whenever command resolution succeeds and the external signing program
exits with status zero (all process I/O error-free) but the captured stdout is
empty, `signGitObject` fails with `UnableToSign`, regardless of the captured
stderr text. -/
theorem signGitObject_empty_stdout (cfg : List (String × String))
    (stdErrText : String)
    (hcmd : (GetSigningCommand cfg).2.2 = none) :
    signGitObject cfg "" stdErrText none = .failed .UnableToSign := by
  simp [signGitObject, hcmd]

/-- Witness for C5 at the empty configuration (GPG defaults) and a non-empty
stderr capture. -/
theorem signGitObject_empty_stdout_witness :
    (GetSigningCommand []).2.2 = none ∧
    signGitObject [] "" "gpg: signing failed: No secret key" none =
      .failed .UnableToSign :=
  ⟨rfl, signGitObject_empty_stdout [] "gpg: signing failed: No secret key" rfl⟩

/-- C6: the key-material signer dispatches on the result of the generic
encoded-block decode: a failed decode falls through to OpenPGP signing; block
type `PGP PRIVATE KEY` signs via OpenPGP; block types `OPENSSH PRIVATE KEY`,
`RSA PRIVATE KEY` and `PRIVATE KEY` sign via SSH; any other block type fails
with `UnknownSigningMethod`. -/
theorem signGitObjectUsingKey_dispatch :
    signGitObjectUsingKey none = .ok .gpgSigner ∧
    signGitObjectUsingKey (some ⟨gpgPrivateKeyPEMHeader⟩) = .ok .gpgSigner ∧
    (∀ t, t = opensshPrivateKeyPEMHeader ∨ t = rsaPrivateKeyPEMHeader ∨
        t = genericPrivateKeyPEMHeader →
      signGitObjectUsingKey (some ⟨t⟩) = .ok .sshSigner) ∧
    (∀ t, t ≠ gpgPrivateKeyPEMHeader → t ≠ opensshPrivateKeyPEMHeader →
        t ≠ rsaPrivateKeyPEMHeader → t ≠ genericPrivateKeyPEMHeader →
      signGitObjectUsingKey (some ⟨t⟩) = .error .UnknownSigningMethod) := by
  refine ⟨rfl, rfl, ?_, ?_⟩
  · intro t ht
    rcases ht with h | h | h <;> subst h <;> rfl
  · intro t h1 h2 h3 h4
    simp [signGitObjectUsingKey, h1, h2, h3, h4]

/-- Witness for C6 at the unrecognized block type `CERTIFICATE`. -/
theorem signGitObjectUsingKey_dispatch_witness :
    ("CERTIFICATE" : String) ≠ gpgPrivateKeyPEMHeader ∧
    signGitObjectUsingKey (some ⟨"CERTIFICATE"⟩) =
      .error .UnknownSigningMethod :=
  ⟨by decide, signGitObjectUsingKey_dispatch.2.2.2 "CERTIFICATE"
    (by decide) (by decide) (by decide) (by decide)⟩

/-- C10: format matching is case-sensitive.  `GetGitConfig` lowercases keys
but keeps values verbatim, so a `gpg.format` value differing from `gpg`,
`ssh` or `x509` only in letter case resolves to `UnknownSigningMethod`; in
particular the raw config line `GPG.Format GPG` produces the entry
`{gpg.format ↦ GPG}` and resolution on it fails. -/
theorem getSigningMethod_case_sensitive :
    (∀ (v : String) (cfg : List (String × String)),
      lookupKey cfg "gpg.format" = some v →
      (goToLower v = "gpg" ∨ goToLower v = "ssh" ∨ goToLower v = "x509") →
      v ≠ "gpg" → v ≠ "ssh" → v ≠ "x509" →
      getSigningMethod cfg = .error .UnknownSigningMethod) ∧
    GetGitConfig "GPG.Format GPG" = [("gpg.format", "GPG")] ∧
    getSigningMethod (GetGitConfig "GPG.Format GPG") =
      .error .UnknownSigningMethod := by
  refine ⟨?_, by decide, rfl⟩
  intro v cfg h _ h1 h2 h3
  simp [getSigningMethod, h, h1, h2, h3]

/-- Witness for C10 at the upper-case format value `GPG`. -/
theorem getSigningMethod_case_sensitive_witness :
    goToLower "GPG" = "gpg" ∧
    getSigningMethod [("gpg.format", "GPG")] =
      .error .UnknownSigningMethod :=
  ⟨by decide, getSigningMethod_case_sensitive.1 "GPG" [("gpg.format", "GPG")]
    rfl (Or.inl (by decide)) (by decide) (by decide) (by decide)⟩

/-- C2: in the keyless verifier, failures obtaining the root pool, the
intermediate pool, the transparency-log client or the CT log public keys are
reported under the `VerifyingSigstoreSignature` category; failures of
certificate-chain verification and of the identity-and-inclusion check are
reported under `IncorrectVerificationKey`; and no stage produces any other
category. -/
theorem verifyGitsignSignature_error_categories (p : GitsignOutcomes) :
    (∀ e, p.fulcioRootsGetErr = some e →
      (verifyGitsignSignature p).map VerifyError.sentinel =
        some .VerifyingSigstoreSignature) ∧
    (∀ e, p.fulcioRootsGetErr = none →
      p.fulcioGetIntermediatesErr = some e →
      (verifyGitsignSignature p).map VerifyError.sentinel =
        some .VerifyingSigstoreSignature) ∧
    (∀ e, p.fulcioRootsGetErr = none →
      p.fulcioGetIntermediatesErr = none →
      p.newCertVerifierErr = none →
      p.verifierVerifyErr = some e →
      (verifyGitsignSignature p).map VerifyError.sentinel =
        some .IncorrectVerificationKey) ∧
    (∀ e, p.fulcioRootsGetErr = none →
      p.fulcioGetIntermediatesErr = none →
      p.newCertVerifierErr = none →
      p.verifierVerifyErr = none →
      p.rekorNewWithOptionsErr = some e →
      (verifyGitsignSignature p).map VerifyError.sentinel =
        some .VerifyingSigstoreSignature) ∧
    (∀ e, p.fulcioRootsGetErr = none →
      p.fulcioGetIntermediatesErr = none →
      p.newCertVerifierErr = none →
      p.verifierVerifyErr = none →
      p.rekorNewWithOptionsErr = none →
      p.getCTLogPubsErr = some e →
      (verifyGitsignSignature p).map VerifyError.sentinel =
        some .VerifyingSigstoreSignature) ∧
    (∀ e, p.fulcioRootsGetErr = none →
      p.fulcioGetIntermediatesErr = none →
      p.newCertVerifierErr = none →
      p.verifierVerifyErr = none →
      p.rekorNewWithOptionsErr = none →
      p.getCTLogPubsErr = none →
      p.validateAndUnpackCertErr = some e →
      (verifyGitsignSignature p).map VerifyError.sentinel =
        some .IncorrectVerificationKey) ∧
    (∀ r, verifyGitsignSignature p = some r →
      r.sentinel = .VerifyingSigstoreSignature ∨
      r.sentinel = .IncorrectVerificationKey) := by
  obtain ⟨f1, f2, f3, f4, f5, f6, f7⟩ := p
  refine ⟨?_, ?_, ?_, ?_, ?_, ?_, ?_⟩
  · intro e h
    simp only at h; subst h; rfl
  · intro e h1 h2
    simp only at h1 h2; subst h1; subst h2; rfl
  · intro e h1 h2 h3 h4
    simp only at h1 h2 h3 h4; subst h1; subst h2; subst h3; subst h4; rfl
  · intro e h1 h2 h3 h4 h5
    simp only at h1 h2 h3 h4 h5
    subst h1; subst h2; subst h3; subst h4; subst h5; rfl
  · intro e h1 h2 h3 h4 h5 h6
    simp only at h1 h2 h3 h4 h5 h6
    subst h1; subst h2; subst h3; subst h4; subst h5; subst h6; rfl
  · intro e h1 h2 h3 h4 h5 h6 h7
    simp only at h1 h2 h3 h4 h5 h6 h7
    subst h1; subst h2; subst h3; subst h4; subst h5; subst h6; subst h7; rfl
  · intro r hr
    rcases f1 with _ | e1 <;> rcases f2 with _ | e2 <;>
      rcases f3 with _ | e3 <;> rcases f4 with _ | e4 <;>
      rcases f5 with _ | e5 <;> rcases f6 with _ | e6 <;>
      rcases f7 with _ | e7 <;>
      simp only [verifyGitsignSignature] at hr <;>
      first
        | exact Option.noConfusion hr
        | (injection hr with h; subst h;
            first
              | exact Or.inl rfl
              | exact Or.inr rfl)

/-- Witness for C2: a root-pool fetch failure is reported as
`VerifyingSigstoreSignature`. -/
theorem verifyGitsignSignature_error_categories_witness :
    (GitsignOutcomes.mk (some "fetch failed") none none none none none
      none).fulcioRootsGetErr = some "fetch failed" ∧
    (verifyGitsignSignature
      (GitsignOutcomes.mk (some "fetch failed") none none none none none
        none)).map VerifyError.sentinel =
      some .VerifyingSigstoreSignature :=
  ⟨rfl, (verifyGitsignSignature_error_categories
    (GitsignOutcomes.mk (some "fetch failed") none none none none none
      none)).1 "fetch failed" rfl⟩

/-- The pipeline state in which only certificate-chain verification
(`verifier.Verify`, keys.go:307) fails. -/
def certVerifyFailure : GitsignOutcomes :=
  ⟨none, none, none, some "certificate chain verification failed", none, none,
    none⟩

/-- Counterexample to C3: when certificate-chain verification fails, the
keyless verifier returns the bare `IncorrectVerificationKey` sentinel
(keys.go:309) — the underlying library error is not attached, contradicting
the claim that every failing stage carries both the sentinel and the
underlying cause. -/
theorem verifyGitsignSignature_certVerify_drops_cause :
    verifyGitsignSignature certVerifyFailure =
      some (.bare .IncorrectVerificationKey) ∧
    (verifyGitsignSignature certVerifyFailure).map VerifyError.hasCause =
      some false :=
  ⟨rfl, rfl⟩

/-- C3 as amended: every failing stage of the keyless verifier except
certificate-chain verification returns the category sentinel joined with the
underlying low-level error; the certificate-chain verification stage returns
the bare `IncorrectVerificationKey` sentinel with no cause attached. -/
theorem verifyGitsignSignature_cause_attachment (p : GitsignOutcomes) :
    (∀ e, p.fulcioRootsGetErr = some e →
      verifyGitsignSignature p = some (.joined .VerifyingSigstoreSignature e)) ∧
    (∀ e, p.fulcioRootsGetErr = none →
      p.fulcioGetIntermediatesErr = some e →
      verifyGitsignSignature p = some (.joined .VerifyingSigstoreSignature e)) ∧
    (∀ e, p.fulcioRootsGetErr = none →
      p.fulcioGetIntermediatesErr = none →
      p.newCertVerifierErr = some e →
      verifyGitsignSignature p = some (.joined .VerifyingSigstoreSignature e)) ∧
    (∀ e, p.fulcioRootsGetErr = none →
      p.fulcioGetIntermediatesErr = none →
      p.newCertVerifierErr = none →
      p.verifierVerifyErr = some e →
      verifyGitsignSignature p = some (.bare .IncorrectVerificationKey)) ∧
    (∀ e, p.fulcioRootsGetErr = none →
      p.fulcioGetIntermediatesErr = none →
      p.newCertVerifierErr = none →
      p.verifierVerifyErr = none →
      p.rekorNewWithOptionsErr = some e →
      verifyGitsignSignature p = some (.joined .VerifyingSigstoreSignature e)) ∧
    (∀ e, p.fulcioRootsGetErr = none →
      p.fulcioGetIntermediatesErr = none →
      p.newCertVerifierErr = none →
      p.verifierVerifyErr = none →
      p.rekorNewWithOptionsErr = none →
      p.getCTLogPubsErr = some e →
      verifyGitsignSignature p = some (.joined .VerifyingSigstoreSignature e)) ∧
    (∀ e, p.fulcioRootsGetErr = none →
      p.fulcioGetIntermediatesErr = none →
      p.newCertVerifierErr = none →
      p.verifierVerifyErr = none →
      p.rekorNewWithOptionsErr = none →
      p.getCTLogPubsErr = none →
      p.validateAndUnpackCertErr = some e →
      verifyGitsignSignature p = some (.joined .IncorrectVerificationKey e)) := by
  obtain ⟨f1, f2, f3, f4, f5, f6, f7⟩ := p
  refine ⟨?_, ?_, ?_, ?_, ?_, ?_, ?_⟩
  · intro e h
    simp only at h; subst h; rfl
  · intro e h1 h2
    simp only at h1 h2; subst h1; subst h2; rfl
  · intro e h1 h2 h3
    simp only at h1 h2 h3; subst h1; subst h2; subst h3; rfl
  · intro e h1 h2 h3 h4
    simp only at h1 h2 h3 h4; subst h1; subst h2; subst h3; subst h4; rfl
  · intro e h1 h2 h3 h4 h5
    simp only at h1 h2 h3 h4 h5
    subst h1; subst h2; subst h3; subst h4; subst h5; rfl
  · intro e h1 h2 h3 h4 h5 h6
    simp only at h1 h2 h3 h4 h5 h6
    subst h1; subst h2; subst h3; subst h4; subst h5; subst h6; rfl
  · intro e h1 h2 h3 h4 h5 h6 h7
    simp only at h1 h2 h3 h4 h5 h6 h7
    subst h1; subst h2; subst h3; subst h4; subst h5; subst h6; subst h7; rfl

/-- Witness for the amended C3: an identity-and-inclusion failure is returned
joined with its cause. -/
theorem verifyGitsignSignature_cause_attachment_witness :
    (GitsignOutcomes.mk none none none none none none
      (some "identity mismatch")).validateAndUnpackCertErr =
      some "identity mismatch" ∧
    verifyGitsignSignature
      (GitsignOutcomes.mk none none none none none none
        (some "identity mismatch")) =
      some (.joined .IncorrectVerificationKey "identity mismatch") :=
  ⟨rfl, (verifyGitsignSignature_cause_attachment
    (GitsignOutcomes.mk none none none none none none
      (some "identity mismatch"))).2.2.2.2.2.2
    "identity mismatch" rfl rfl rfl rfl rfl rfl rfl⟩

/-- C7: SSH signature verification distinguishes structural from
cryptographic failure — a trust key whose material cannot be parsed as a
public key, or a signature that cannot be unarmored, fails with the
`VerifyingSSHSignature` sentinel joined to the underlying error, while a
cryptographic verification mismatch fails with `IncorrectVerificationKey`. -/
theorem verifySSHKeySignature_error_categories (p : SSHVerifyOutcomes) :
    (∀ e, p.newSignerVerifierErr = some e →
      verifySSHKeySignature p = some (.joined .VerifyingSSHSignature e)) ∧
    (∀ e, p.newSignerVerifierErr = none →
      p.sshNewPublicKeyErr = some e →
      verifySSHKeySignature p = some (.joined .VerifyingSSHSignature e)) ∧
    (∀ e, p.newSignerVerifierErr = none →
      p.sshNewPublicKeyErr = none →
      p.unarmorErr = some e →
      verifySSHKeySignature p = some (.joined .VerifyingSSHSignature e)) ∧
    (∀ e, p.newSignerVerifierErr = none →
      p.sshNewPublicKeyErr = none →
      p.unarmorErr = none →
      p.sshsigVerifyErr = some e →
      verifySSHKeySignature p =
        some (.joined .IncorrectVerificationKey e)) := by
  obtain ⟨f1, f2, f3, f4⟩ := p
  refine ⟨?_, ?_, ?_, ?_⟩
  · intro e h
    simp only at h; subst h; rfl
  · intro e h1 h2
    simp only at h1 h2; subst h1; subst h2; rfl
  · intro e h1 h2 h3
    simp only at h1 h2 h3; subst h1; subst h2; subst h3; rfl
  · intro e h1 h2 h3 h4
    simp only at h1 h2 h3 h4; subst h1; subst h2; subst h3; subst h4; rfl

/-- Witness for C7: an unarmor failure is reported as a wrapped
`VerifyingSSHSignature`, and a verification mismatch as
`IncorrectVerificationKey`. -/
theorem verifySSHKeySignature_error_categories_witness :
    (SSHVerifyOutcomes.mk none none (some "malformed envelope")
      none).unarmorErr = some "malformed envelope" ∧
    verifySSHKeySignature
      (SSHVerifyOutcomes.mk none none (some "malformed envelope") none) =
      some (.joined .VerifyingSSHSignature "malformed envelope") :=
  ⟨rfl, (verifySSHKeySignature_error_categories
    (SSHVerifyOutcomes.mk none none (some "malformed envelope") none)).2.2.1
    "malformed envelope" rfl rfl rfl⟩

/-- C8: for every output line, the configuration read takes the first
space-delimited token as the key (lowercased) and the remaining tokens
rejoined with single spaces as the value, and drops lines with no value token
(fewer than two fields); the raw line `User.Name Jane Doe` yields the entry
`{user.name ↦ Jane Doe}`. -/
theorem GetGitConfig_line_parsing (m : List (String × String)) (line : String) :
    (∀ key val rest, goSplit line ' ' = key :: val :: rest →
      parseGitConfigLine m line =
        insertKey m (goToLower key) (goJoinSpace (val :: rest))) ∧
    (∀ key, goSplit line ' ' = [key] → parseGitConfigLine m line = m) ∧
    (goSplit line ' ' = [] → parseGitConfigLine m line = m) ∧
    GetGitConfig "User.Name Jane Doe" = [("user.name", "Jane Doe")] := by
  refine ⟨?_, ?_, ?_, by decide⟩
  · intro key val rest h
    simp [parseGitConfigLine, h]
  · intro key h
    simp [parseGitConfigLine, h]
  · intro h
    simp [parseGitConfigLine, h]

/-- Witness for C8 at the raw line `User.Name Jane Doe`. -/
theorem GetGitConfig_line_parsing_witness :
    goSplit "User.Name Jane Doe" ' ' = ["User.Name", "Jane", "Doe"] ∧
    parseGitConfigLine [] "User.Name Jane Doe" =
      insertKey [] (goToLower "User.Name") (goJoinSpace ["Jane", "Doe"]) ∧
    insertKey [] (goToLower "User.Name") (goJoinSpace ["Jane", "Doe"]) =
      [("user.name", "Jane Doe")] :=
  ⟨by decide,
    (GetGitConfig_line_parsing [] "User.Name Jane Doe").1
      "User.Name" "Jane" ["Doe"] (by decide),
    by decide⟩

end Gittuf
